import Mathlib

/-!
Formal model of the OnStepX Alpaca mount driver.

This file shallowly embeds the pure computational content of the mount
driver (`telescope.py`) and the coordinate codec (`alpaca_helpers.py`)
into Lean, and proves properties of the embedded functions.

Conventions of the embedding:
* Python floats are modelled as rationals (`ℚ`); every arithmetic
  comparison in the modelled code is a comparison of exact values.
* Effectful reads from the device (`send_command`, `get_right_ascension`,
  `get_declination`, `get_sidereal_time`) are modelled by passing the
  value the read produced as an explicit `Option` argument: `none` means
  the read failed / no response arrived.
* Wall-clock time (`time.time()`) is passed explicitly as a `now : ℚ`
  argument.
* Methods that mutate `self` are modelled as functions from the relevant
  state fragment to (result, new state fragment).
* Python square roots `x ** 0.5` that are only used in comparisons
  `sqrt e < t` (with `0 ≤ t`) are embedded as the equivalent exact
  comparison `e < t ^ 2`, and `sqrt e > t` as `e > t ^ 2`.
* Python truthiness tests on floats (`if self._slew_start_time:`) are
  embedded literally: `none` and a stored value of `0` are falsy.
-/

namespace AlpacaOnStepX

/-- Pier side enumeration from `telescope.py` (`class PierSide`). -/
inductive PierSide where
  | pierUnknown : PierSide
  | pierEast : PierSide
  | pierWest : PierSide
deriving DecidableEq, Repr

/-- Guide direction enumeration from `telescope.py` (`class GuideDirections`). -/
inductive GuideDirections where
  | guideNorth : GuideDirections
  | guideSouth : GuideDirections
  | guideEast : GuideDirections
  | guideWest : GuideDirections
deriving DecidableEq, Repr

/-- The slew-tracking fragment of the mount state
(`self._slew_target`, `self._slewing`, `self._slew_start_time`,
`self._position_stable_since`, `self._last_position` in `OnStepXMount.__init__`).
Positions and targets are `(ra_hours, dec_degrees)` pairs. -/
structure SlewState where
  slew_target : Option (ℚ × ℚ)
  slewing : Bool
  slew_start_time : Option ℚ
  position_stable_since : Option ℚ
  last_position : Option (ℚ × ℚ)
deriving DecidableEq, Repr

/-- `self._slew_timeout = 120` (seconds). -/
def slew_timeout : ℚ := 120

/-- `self._stability_threshold = 1.0` (arcminutes). -/
def stability_threshold : ℚ := 1

/-- `self._stability_duration = 2.0` (seconds). -/
def stability_duration : ℚ := 2

/-- `_clear_slew_state`: reset all slew-tracking fields. -/
def clear_slew_state : SlewState :=
  { slew_target := none
    slewing := false
    slew_start_time := none
    position_stable_since := none
    last_position := none }

/-- `_set_slew_target(ra_hours, dec_degrees)`: record a slew target and
start time, reset stability bookkeeping. -/
def set_slew_target (ra_hours dec_degrees now : ℚ) : SlewState :=
  { slew_target := some (ra_hours, dec_degrees)
    slewing := true
    slew_start_time := some now
    position_stable_since := none
    last_position := none }

/-- RA separation in arcminutes with wrap-around handling, from the body of
`is_slewing`:
`ra_diff = abs(current_ra - target_ra) * 15.0 * 60.0`, then
`if ra_diff > 12.0 * 15.0 * 60.0: ra_diff = 24.0 * 15.0 * 60.0 - ra_diff`. -/
def ra_sep_arcmin (current_ra target_ra : ℚ) : ℚ :=
  let ra_diff := |current_ra - target_ra| * 15 * 60
  if ra_diff > 12 * 15 * 60 then 24 * 15 * 60 - ra_diff else ra_diff

/-- The position-polling part of `is_slewing` (everything after the timeout
check): fetch current RA/Dec, compare distance to target against the
closeness threshold, and run the stabilization bookkeeping.  The squared
comparisons embed `(ra_diff**2 + dec_diff**2)**0.5 < threshold` and
`total_movement > 0.1` exactly. -/
def slew_position_poll (s : SlewState) (now target_ra target_dec : ℚ)
    (current_ra current_dec : Option ℚ) : Bool × SlewState :=
  match current_ra, current_dec with
  | some cra, some cdec =>
    let ra_diff := ra_sep_arcmin cra target_ra
    let dec_diff := |cdec - target_dec| * 60
    if ra_diff ^ 2 + dec_diff ^ 2 < stability_threshold ^ 2 then
      match s.position_stable_since with
      | none =>
        -- just arrived near target
        (true, { s with position_stable_since := some now
                        last_position := some (cra, cdec) })
      | some stable_since =>
        let moved : Bool :=
          match s.last_position with
          | some lp =>
            decide ((|cra - lp.1| * 15 * 60) ^ 2 + (|cdec - lp.2| * 60) ^ 2
                      > (1 / 10) ^ 2)
          | none => false
        if moved then
          -- position is still changing - reset stability timer
          (true, { s with position_stable_since := some now
                          last_position := some (cra, cdec) })
        else if now - stable_since ≥ stability_duration then
          -- position stable for required duration - slew complete
          (false, clear_slew_state)
        else
          (true, s)
    else
      -- still far from target - definitely slewing
      (true, s)
  | _, _ =>
    -- can't read position - assume still slewing
    (true, s)

/-- `is_slewing`: enhanced slewing detection using position stability.
Arguments: the connection flag, the slew state, the current wall-clock
time, and the two position reads (`get_right_ascension`,
`get_declination`), `none` when the read failed.  Returns the reported
boolean and the updated slew state.  The Python test
`if self._slew_start_time:` is falsy for `None` and for `0.0`. -/
def is_slewing (connected : Bool) (s : SlewState) (now : ℚ)
    (current_ra current_dec : Option ℚ) : Bool × SlewState :=
  if !connected then (false, s)
  else
    match s.slew_target with
    | none => (false, s)
    | some tgt =>
      match s.slew_start_time with
      | some t0 =>
        if t0 ≠ 0 ∧ now - t0 > slew_timeout then (false, clear_slew_state)
        else slew_position_poll s now tgt.1 tgt.2 current_ra current_dec
      | none => slew_position_poll s now tgt.1 tgt.2 current_ra current_dec

/-- `slew_to_coords(ra_hours, dec_degrees)`: the slew-state effect of a
coordinate slew.  `ms_response` is the device's answer to `:MS#`. -/
def slew_to_coords (s : SlewState) (ra_hours dec_degrees now : ℚ)
    (ms_response : Option String) : Bool × SlewState :=
  if ms_response = some "0" then
    (true, set_slew_target ra_hours dec_degrees now)
  else
    (false, clear_slew_state)

/-- `slew_to_altaz(azimuth, altitude)`: the slew-state effect of an Alt/Az
slew.  `ma_response` is the device's answer to `:MA#`.  On success only
`_slewing` and `_slew_start_time` are set; `_slew_target` is left as it
was. -/
def slew_to_altaz (s : SlewState) (now : ℚ)
    (ma_response : Option String) : Bool × SlewState :=
  if ma_response = some "0" then
    (true, { s with slewing := true, slew_start_time := some now })
  else
    (false, clear_slew_state)

/-- One step short of the loop `while ha > 12.0: ha -= 24.0`
(first normalization loop in `destination_side_of_pier` and
`can_reach_coordinates`). -/
def reduce_down (ha : ℚ) : ℚ :=
  if ha > 12 then reduce_down (ha - 24) else ha
termination_by (⌈(ha - 12) / 24⌉).toNat
decreasing_by
  rename_i h
  have h0 : (0 : ℚ) < (ha - 12) / 24 := by
    apply div_pos <;> linarith
  have hceil : ⌈(ha - 24 - 12) / 24⌉ = ⌈(ha - 12) / 24⌉ - 1 := by
    rw [show (ha - 24 - 12) / 24 = (ha - 12) / 24 - 1 by ring]
    exact Int.ceil_sub_one _
  have h1 : 1 ≤ ⌈(ha - 12) / 24⌉ := Int.ceil_pos.mpr h0
  omega

/-- The loop `while ha < -12.0: ha += 24.0` (second normalization loop). -/
def reduce_up (ha : ℚ) : ℚ :=
  if ha < -12 then reduce_up (ha + 24) else ha
termination_by (⌈(-12 - ha) / 24⌉).toNat
decreasing_by
  rename_i h
  have h0 : (0 : ℚ) < (-12 - ha) / 24 := by
    apply div_pos <;> linarith
  have hceil : ⌈(-12 - (ha + 24)) / 24⌉ = ⌈(-12 - ha) / 24⌉ - 1 := by
    rw [show (-12 - (ha + 24)) / 24 = (-12 - ha) / 24 - 1 by ring]
    exact Int.ceil_sub_one _
  have h1 : 1 ≤ ⌈(-12 - ha) / 24⌉ := Int.ceil_pos.mpr h0
  omega

/-- Hour-angle normalization: the two `while` loops run in sequence
(`while ha > 12.0: ha -= 24.0` then `while ha < -12.0: ha += 24.0`). -/
def normalize_ha (ha : ℚ) : ℚ := reduce_up (reduce_down ha)

/-- `destination_side_of_pier(ra_hours, dec_degrees)`: predict pier side
after slewing.  `lst` is the result of `get_sidereal_time()` (`none` when
the device gives no sidereal time).  The `dec_degrees` parameter of the
source method is unused by its body. -/
def destination_side_of_pier (meridian_offset_east meridian_offset_west : ℚ)
    (lst : Option ℚ) (ra_hours : ℚ) : PierSide :=
  match lst with
  | none => PierSide.pierUnknown
  | some l =>
    let ha := normalize_ha (l - ra_hours)
    if ha < 0 then
      -- East side
      if ha < -(12 + meridian_offset_east) then PierSide.pierWest
      else PierSide.pierEast
    else
      -- West side
      if ha > meridian_offset_west then PierSide.pierEast
      else PierSide.pierWest

/-- `_calculate_altitude(ra_hours, dec_degrees)`: altitude of a target via
the standard spherical-trig formula.  `math.radians`/`math.degrees` are
`· * (π / 180)` and `· * (180 / π)`. -/
noncomputable def calculate_altitude (site_latitude : ℝ) (lst : Option ℝ)
    (ra_hours dec_degrees : ℝ) : ℝ :=
  match lst with
  | none => 0
  | some l =>
    let ha := (l - ra_hours) * 15
    let ha_rad := ha * (Real.pi / 180)
    let dec_rad := dec_degrees * (Real.pi / 180)
    let lat_rad := site_latitude * (Real.pi / 180)
    let sin_alt := Real.sin dec_rad * Real.sin lat_rad +
                   Real.cos dec_rad * Real.cos lat_rad * Real.cos ha_rad
    Real.arcsin sin_alt * (180 / Real.pi)

/-- `can_reach_coordinates(ra_hours, dec_degrees)`: check whether the
coordinates are accessible.  `alt_of` stands for the method call
`self._calculate_altitude` (it is consulted only when `site_latitude ≠ 0`,
exactly as in the source); `lst` is the result of `get_sidereal_time()`.
The source's f-string reasons carry interpolated values; the embedding
keeps fixed descriptive strings, with `""` for success as in the source. -/
def can_reach_coordinates (site_latitude meridian_offset_east meridian_offset_west : ℚ)
    (lst : Option ℚ) (alt_of : ℚ → ℚ → ℚ) (ra_hours dec_degrees : ℚ) :
    Bool × String :=
  if dec_degrees < -90 ∨ dec_degrees > 90 then
    (false, "Declination out of range")
  else if site_latitude ≠ 0 ∧ alt_of ra_hours dec_degrees < 0 then
    (false, "Target below horizon")
  else
    match lst with
    | some l =>
      let ha := normalize_ha (l - ra_hours)
      let max_ha_east := 12 + meridian_offset_east
      let max_ha_west := meridian_offset_west
      if ha < -max_ha_east ∨ ha > max_ha_west then
        (false, "Beyond meridian limits")
      else (true, "")
    | none => (true, "")

/-! ## Coordinate codec (`alpaca_helpers.py`)

`format_ra_hours` produces the string `f"{hours:02d}:{minutes:02d}:{seconds:05.2f}"`
and `format_dec_degrees` the string `f"{sign}{degrees:02d}:{minutes:02d}:{seconds:05.2f}"`.
The string layer is a field-wise injective rendering of the numeric
fields (two integers and a seconds value rounded to two decimals, plus a
sign); the parsers split on the separators and convert each field back
with `float()`, which recovers exactly the printed values.  The embedding
therefore represents a formatted string by its numeric fields and the
parser by the arithmetic the source performs on those fields. -/

/-- Python `int()` truncation toward zero on a rational. -/
def pyTrunc (q : ℚ) : ℤ := if 0 ≤ q then ⌊q⌋ else -⌊-q⌋

/-- Rounding to two decimal places, modelling the `%05.2f` rendering of
the seconds field.  (CPython rounds ties to even; the two roundings agree
off ties and both satisfy `|round2 q - q| ≤ 1/200`, the only fact used
below.) -/
def round2 (q : ℚ) : ℚ := ((⌊q * 100 + 1 / 2⌋ : ℤ) : ℚ) / 100

/-- The numeric fields of a formatted RA string `HH:MM:SS.ss`. -/
structure RaSexa where
  hours : ℤ
  minutes : ℤ
  seconds : ℚ
deriving DecidableEq, Repr

/-- `format_ra_hours(ra_hours)`: convert decimal hours to the fields of
`HH:MM:SS.ss`. -/
def format_ra_hours (ra_hours : ℚ) : RaSexa :=
  let hours : ℤ := pyTrunc ra_hours
  let minutes : ℤ := pyTrunc ((ra_hours - hours) * 60)
  let seconds : ℚ := round2 (((ra_hours - hours) * 60 - minutes) * 60)
  ⟨hours, minutes, seconds⟩

/-- `parse_ra_to_hours(ra_string)` applied to a well-formed formatted
string: `hours + minutes/60.0 + seconds/3600.0`. -/
def parse_ra_to_hours (x : RaSexa) : ℚ :=
  x.hours + x.minutes / 60 + x.seconds / 3600

/-- The numeric fields of a formatted Dec string `sDD:MM:SS.ss`
(`sign` is `1` for `'+'`, `-1` for `'-'`). -/
structure DecSexa where
  sign : ℤ
  degrees : ℤ
  minutes : ℤ
  seconds : ℚ
deriving DecidableEq, Repr

/-- `format_dec_degrees(dec_degrees)`: convert decimal degrees to the
fields of `sDD:MM:SS.ss` (`sign = '+' if dec_degrees >= 0 else '-'`,
then the absolute value is decomposed). -/
def format_dec_degrees (dec_degrees : ℚ) : DecSexa :=
  let sign : ℤ := if dec_degrees ≥ 0 then 1 else -1
  let d := |dec_degrees|
  let degrees : ℤ := pyTrunc d
  let minutes : ℤ := pyTrunc ((d - degrees) * 60)
  let seconds : ℚ := round2 (((d - degrees) * 60 - minutes) * 60)
  ⟨sign, degrees, minutes, seconds⟩

/-- `parse_dec_to_degrees(dec_string)` applied to a well-formed formatted
string: `sign * (degrees + minutes/60.0 + seconds/3600.0)`. -/
def parse_dec_to_degrees (x : DecSexa) : ℚ :=
  x.sign * (x.degrees + x.minutes / 60 + x.seconds / 3600)

/-! ## Pulse guiding (`telescope.py`) -/

/-- The pulse-guide fragment of the mount state (`self.pulse_guiding`,
`self.pulse_guide_end_time`, `self.pulse_guide_direction`,
`self.pulse_guide_duration`, `self.pulse_guide_start_time`). -/
structure PulseState where
  pulse_guiding : Bool
  pulse_guide_end_time : ℚ
  pulse_guide_direction : Option GuideDirections
  pulse_guide_duration : ℚ
  pulse_guide_start_time : ℚ
deriving DecidableEq, Repr

/-- `pulse_guide(direction, duration_ms)`: issue a directional pulse and
record the window.  `response` is the device's answer to the `:Mg..#`
command; success is `response == '0' or response is None`.  Every member
of `GuideDirections` has an entry in `direction_cmds`, so the earlier
`direction not in direction_cmds` return never fires.  The two
`time.time()` calls in the success branch are both modelled by `now`. -/
def pulse_guide (s : PulseState) (direction : GuideDirections)
    (duration_ms now : ℚ) (response : Option String) : Bool × PulseState :=
  if response = some "0" ∨ response = none then
    (true,
      { pulse_guiding := true
        pulse_guide_end_time := now + duration_ms / 1000
        pulse_guide_direction := some direction
        pulse_guide_duration := duration_ms
        pulse_guide_start_time := now })
  else
    (false, s)

/-- `is_pulse_guiding()`: check whether pulse guiding is active.
`gu_response` is the device's answer to `:GU#` (`none` when the query
fails or raises).  The Python test `if response:` is falsy for `None`
and for the empty string. -/
def is_pulse_guiding (s : PulseState) (now : ℚ)
    (gu_response : Option String) : Bool × PulseState :=
  if !s.pulse_guiding then (false, s)
  else if now > s.pulse_guide_end_time then
    (false, { s with pulse_guiding := false })
  else
    match gu_response with
    | some r =>
      if r = "" then (true, s)
      else if r = "G" then (true, s)
      else if r = "N" ∨ r = "0" then (false, { s with pulse_guiding := false })
      else (true, s)
    | none => (true, s)

/-! ## Theorems: slew monitor -/

/-- When a slew session is active and the hard timeout has not elapsed,
`is_slewing` is the position poll. -/
theorem is_slewing_active_poll (s : SlewState) (now : ℚ) (tgt : ℚ × ℚ)
    (cra cdec : Option ℚ)
    (htgt : s.slew_target = some tgt)
    (hto : ∀ t0, s.slew_start_time = some t0 → now - t0 ≤ slew_timeout) :
    is_slewing true s now cra cdec = slew_position_poll s now tgt.1 tgt.2 cra cdec := by
  unfold is_slewing
  rw [htgt]
  cases hst : s.slew_start_time with
  | none => rfl
  | some t0 =>
    have h := hto t0 hst
    simp only [Bool.not_true, Bool.false_eq_true, if_false]
    rw [if_neg]
    rintro ⟨-, h2⟩
    exact absurd h2 (not_lt.mpr h)

/-- Once the session is cleared, every poll reports not slewing and leaves
the cleared state. -/
theorem is_slewing_cleared (now : ℚ) (cra cdec : Option ℚ) :
    is_slewing true clear_slew_state now cra cdec = (false, clear_slew_state) := rfl

/-- C1: After a slew target is set, a poll whose angular separation to the
target (RA difference scaled by 15·60, Dec difference scaled by 60,
combined as a Euclidean norm) is below the closeness threshold of 1.0
arcminute behaves as follows while the hard timeout has not elapsed:
(a) the first such poll starts the stabilization timer and still reports
slewing; (b) inter-poll movement exceeding the 0.1-arcminute jitter
threshold resets the stabilization timer while still reporting slewing;
(c) while the position has stayed within the jitter threshold for less
than the 2.0-second stability duration, the poll reports slewing and
leaves the session untouched; (d) once the position has remained within
the jitter threshold for the stability duration, the poll reports not
slewing and clears the slew session; (e) after the session is cleared,
every poll reports not slewing.  (Euclidean comparisons against the
thresholds are stated on squares, which is exact.) -/
theorem C1_slew_stability_completion
    (s : SlewState) (now tra tdec cra cdec : ℚ)
    (htgt : s.slew_target = some (tra, tdec))
    (hto : ∀ t0, s.slew_start_time = some t0 → now - t0 ≤ slew_timeout)
    (hclose : (ra_sep_arcmin cra tra) ^ 2 + (|cdec - tdec| * 60) ^ 2
                < stability_threshold ^ 2) :
    (s.position_stable_since = none →
      is_slewing true s now (some cra) (some cdec) =
        (true, { s with position_stable_since := some now
                        last_position := some (cra, cdec) })) ∧
    (∀ ts lra ldec, s.position_stable_since = some ts →
      s.last_position = some (lra, ldec) →
      (|cra - lra| * 15 * 60) ^ 2 + (|cdec - ldec| * 60) ^ 2 > (1 / 10) ^ 2 →
      is_slewing true s now (some cra) (some cdec) =
        (true, { s with position_stable_since := some now
                        last_position := some (cra, cdec) })) ∧
    (∀ ts lra ldec, s.position_stable_since = some ts →
      s.last_position = some (lra, ldec) →
      (|cra - lra| * 15 * 60) ^ 2 + (|cdec - ldec| * 60) ^ 2 ≤ (1 / 10) ^ 2 →
      now - ts < stability_duration →
      is_slewing true s now (some cra) (some cdec) = (true, s)) ∧
    (∀ ts lra ldec, s.position_stable_since = some ts →
      s.last_position = some (lra, ldec) →
      (|cra - lra| * 15 * 60) ^ 2 + (|cdec - ldec| * 60) ^ 2 ≤ (1 / 10) ^ 2 →
      now - ts ≥ stability_duration →
      is_slewing true s now (some cra) (some cdec) = (false, clear_slew_state)) ∧
    (∀ t cr cd, is_slewing true clear_slew_state t cr cd = (false, clear_slew_state)) := by
  have hpoll := is_slewing_active_poll s now (tra, tdec) (some cra) (some cdec) htgt hto
  refine ⟨?_, ?_, ?_, ?_, fun t cr cd => is_slewing_cleared t cr cd⟩
  · intro hss
    rw [hpoll]
    unfold slew_position_poll
    rw [hss]
    simp only [if_pos hclose]
  · intro ts lra ldec hss hlp hmove
    rw [hpoll]
    unfold slew_position_poll
    rw [hss, hlp]
    simp only [if_pos hclose, decide_eq_true hmove, if_pos]
  · intro ts lra ldec hss hlp hmove hshort
    rw [hpoll]
    unfold slew_position_poll
    rw [hss, hlp]
    simp only [if_pos hclose, decide_eq_false (not_lt.mpr hmove), Bool.false_eq_true,
      if_false, if_neg (not_le.mpr hshort)]
  · intro ts lra ldec hss hlp hmove hlong
    rw [hpoll]
    unfold slew_position_poll
    rw [hss, hlp]
    simp only [if_pos hclose, decide_eq_false (not_lt.mpr hmove), Bool.false_eq_true,
      if_false, if_pos hlong]

/-- Witness for C1: a session aimed at `(10h, 20°)`, stable at the target
since `t = 100` with the poll at `t = 102.5`, is declared complete and
cleared. -/
theorem C1_witness :
    is_slewing true
      { slew_target := some (10, 20), slewing := true, slew_start_time := some 5,
        position_stable_since := some 100, last_position := some (10, 20) }
      (205 / 2) (some 10) (some 20) = (false, clear_slew_state) :=
  (C1_slew_stability_completion
      { slew_target := some (10, 20), slewing := true, slew_start_time := some 5,
        position_stable_since := some 100, last_position := some (10, 20) }
      (205 / 2) 10 20 10 20 rfl
      (by intro t0 h; injection h with h; subst h; norm_num [slew_timeout])
      (by norm_num [ra_sep_arcmin, stability_threshold])).2.2.2.1
    100 10 20 rfl rfl (by norm_num) (by norm_num [stability_duration])

/-- C2: Whenever a slew session is active (a target and a positive start
time are recorded) and the elapsed time since the slew start exceeds the
hard timeout of 120 seconds, the next `is_slewing` poll clears the slew
session and reports not slewing, regardless of the position reads (both
for failed reads and for any read values). -/
theorem C2_slew_hard_timeout (s : SlewState) (now t0 : ℚ) (tgt : ℚ × ℚ)
    (cra cdec : Option ℚ)
    (htgt : s.slew_target = some tgt)
    (hst : s.slew_start_time = some t0)
    (hpos : 0 < t0)
    (helapsed : now - t0 > slew_timeout) :
    is_slewing true s now cra cdec = (false, clear_slew_state) := by
  unfold is_slewing
  rw [htgt, hst]
  simp only [Bool.not_true, Bool.false_eq_true, if_false]
  rw [if_pos ⟨hpos.ne', helapsed⟩]

/-- Witness for C2: a never-converging feed (reads fail) still reports
not-slewing once 195 seconds have elapsed since the slew start. -/
theorem C2_witness :
    is_slewing true (set_slew_target 10 20 5) 200 none none
      = (false, clear_slew_state) :=
  C2_slew_hard_timeout (set_slew_target 10 20 5) 200 5 (10, 20) none none
    rfl rfl (by norm_num) (by norm_num [slew_timeout])

/-- C3: the RA separation used by the slew monitor is
`|current - target| * 15 * 60` arcminutes when that is at most 10800
(12h-equivalent) and `21600 - |current - target| * 15 * 60` otherwise;
equivalently it is the smaller of the direct and the wrapped distance;
in particular current `RA = 23.9h` against target `RA = 0.1h` yields
`0.2 * 15 * 60` arcminutes. -/
theorem C3_ra_wraparound (cur tgt : ℚ)
    (hc0 : 0 ≤ cur) (hc1 : cur < 24) (ht0 : 0 ≤ tgt) (ht1 : tgt < 24) :
    (|cur - tgt| * 15 * 60 ≤ 10800 →
      ra_sep_arcmin cur tgt = |cur - tgt| * 15 * 60) ∧
    (|cur - tgt| * 15 * 60 > 10800 →
      ra_sep_arcmin cur tgt = 21600 - |cur - tgt| * 15 * 60) ∧
    ra_sep_arcmin cur tgt
      = min (|cur - tgt| * 15 * 60) (21600 - |cur - tgt| * 15 * 60) ∧
    ra_sep_arcmin (239 / 10) (1 / 10) = (2 / 10) * 15 * 60 := by
  have hrw : ra_sep_arcmin cur tgt =
      if |cur - tgt| * 15 * 60 > 10800 then 21600 - |cur - tgt| * 15 * 60
      else |cur - tgt| * 15 * 60 := by
    unfold ra_sep_arcmin
    norm_num
  refine ⟨?_, ?_, ?_, ?_⟩
  · intro h
    rw [hrw, if_neg (not_lt.mpr h)]
  · intro h
    rw [hrw, if_pos h]
  · rcases le_or_lt (|cur - tgt| * 15 * 60) 10800 with h | h
    · rw [hrw, if_neg (not_lt.mpr h), min_eq_left (by linarith)]
    · rw [hrw, if_pos h, min_eq_right (by linarith)]
  · unfold ra_sep_arcmin
    rw [show |(239 / 10 : ℚ) - 1 / 10| = 238 / 10 by
      rw [abs_of_nonneg] <;> norm_num]
    norm_num

/-- Witness for C3: the wrap-around example from the spec, evaluated. -/
theorem C3_witness :
    ra_sep_arcmin (239 / 10) (1 / 10) = (2 / 10) * 15 * 60 :=
  (C3_ra_wraparound (239 / 10) (1 / 10) (by norm_num) (by norm_num)
    (by norm_num) (by norm_num)).2.2.2

/-- C4: while a slew session is active and the hard timeout has not
elapsed, a poll on which reading the current RA or Dec fails reports
still slewing and leaves the slew state unchanged. -/
theorem C4_read_failure_bias (s : SlewState) (now : ℚ) (tgt : ℚ × ℚ)
    (cra cdec : Option ℚ)
    (htgt : s.slew_target = some tgt)
    (hto : ∀ t0, s.slew_start_time = some t0 → now - t0 ≤ slew_timeout)
    (hfail : cra = none ∨ cdec = none) :
    is_slewing true s now cra cdec = (true, s) := by
  rw [is_slewing_active_poll s now tgt cra cdec htgt hto]
  rcases hfail with h | h
  · subst h; rfl
  · subst h
    unfold slew_position_poll
    cases cra <;> rfl

/-- Witness for C4: one second after the slew start, a failed RA read
reports still slewing with the session intact. -/
theorem C4_witness :
    is_slewing true (set_slew_target 10 20 5) 6 none none
      = (true, set_slew_target 10 20 5) :=
  C4_read_failure_bias (set_slew_target 10 20 5) 6 (10, 20) none none
    rfl (by intro t0 h; injection h with h; subst h; norm_num [slew_timeout])
    (Or.inl rfl)

/-! ## Theorems: hour-angle normalization and pier side -/

theorem reduce_down_le (ha : ℚ) : reduce_down ha ≤ 12 := by
  induction ha using reduce_down.induct with
  | case1 ha h ih => rw [reduce_down.eq_def, if_pos h]; exact ih
  | case2 ha h => rw [reduce_down.eq_def, if_neg h]; exact le_of_not_lt h

theorem reduce_up_ge (ha : ℚ) : -12 ≤ reduce_up ha := by
  induction ha using reduce_up.induct with
  | case1 ha h ih => rw [reduce_up.eq_def, if_pos h]; exact ih
  | case2 ha h => rw [reduce_up.eq_def, if_neg h]; exact le_of_not_lt h

theorem reduce_up_le (ha : ℚ) (hle : ha ≤ 12) : reduce_up ha ≤ 12 := by
  induction ha using reduce_up.induct with
  | case1 ha h ih => rw [reduce_up.eq_def, if_pos h]; exact ih (by linarith)
  | case2 ha h => rw [reduce_up.eq_def, if_neg h]; exact hle

theorem normalize_ha_ge (ha : ℚ) : -12 ≤ normalize_ha ha := reduce_up_ge _

theorem normalize_ha_le (ha : ℚ) : normalize_ha ha ≤ 12 :=
  reduce_up_le _ (reduce_down_le ha)

/-- The normalization loops leave an already-normalized hour angle
unchanged. -/
theorem normalize_ha_of_mem (ha : ℚ) (h1 : -12 ≤ ha) (h2 : ha ≤ 12) :
    normalize_ha ha = ha := by
  unfold normalize_ha
  rw [reduce_down.eq_def, if_neg (not_lt.mpr h2), reduce_up.eq_def,
      if_neg (not_lt.mpr h1)]

/-- Evaluation of `destination_side_of_pier` when sidereal time is
available. -/
theorem destination_side_of_pier_some (moe mow l ra : ℚ) :
    destination_side_of_pier moe mow (some l) ra =
      (if normalize_ha (l - ra) < 0 then
        if normalize_ha (l - ra) < -(12 + moe) then PierSide.pierWest
        else PierSide.pierEast
      else if normalize_ha (l - ra) > mow then PierSide.pierEast
      else PierSide.pierWest) := rfl

/-- Counterexample to C5.  With both meridian offsets configured to 1 hour
and sidereal time 12h, the targets `ra = 12.5h` and `ra = 11.5h` have
normalized hour angles `-0.5h` and `+0.5h`, both strictly between the
claimed flip boundaries `-meridianOffsetEast = -1h` and
`+meridianOffsetWest = +1h`; yet the predicted sides differ (the side
actually flips at hour angle 0, not at the east offset).  So
`destination_side_of_pier`, viewed as a function of hour angle, is not
constant between the two configured offsets. -/
theorem C5_counterexample :
    destination_side_of_pier 1 1 (some 12) (25 / 2) = PierSide.pierEast ∧
    destination_side_of_pier 1 1 (some 12) (23 / 2) = PierSide.pierWest := by
  constructor
  · rw [destination_side_of_pier_some,
        show (12 : ℚ) - 25 / 2 = -(1 / 2) by norm_num,
        normalize_ha_of_mem (-(1 / 2)) (by norm_num) (by norm_num)]
    norm_num
  · rw [destination_side_of_pier_some,
        show (12 : ℚ) - 23 / 2 = 1 / 2 by norm_num,
        normalize_ha_of_mem (1 / 2) (by norm_num) (by norm_num)]
    norm_num

/-- C5 (amended): with sidereal time available and a nonnegative east
meridian offset, `destination_side_of_pier` as a function of the
normalized hour angle `ha ∈ [-12, 12]` returns `pierEast` for `ha < 0`,
`pierWest` for `0 ≤ ha ≤ meridianOffsetWest` and `pierEast` for
`ha > meridianOffsetWest`: its side changes exactly at hour angle 0 and
at the west offset.  The east offset produces no flip on the east side,
because its comparison threshold `-(12 + meridianOffsetEast)` lies at or
below the lower end of the normalized range.  `pierUnknown` is returned
exactly when sidereal time is unavailable. -/
theorem C5_destination_pier_side (moe mow l ra : ℚ) (hmoe : 0 ≤ moe) :
    destination_side_of_pier moe mow none ra = PierSide.pierUnknown ∧
    destination_side_of_pier moe mow (some l) ra ≠ PierSide.pierUnknown ∧
    (normalize_ha (l - ra) < 0 →
      destination_side_of_pier moe mow (some l) ra = PierSide.pierEast) ∧
    (0 ≤ normalize_ha (l - ra) → normalize_ha (l - ra) ≤ mow →
      destination_side_of_pier moe mow (some l) ra = PierSide.pierWest) ∧
    (mow < normalize_ha (l - ra) →
      destination_side_of_pier moe mow (some l) ra = PierSide.pierEast) := by
  have hge : -12 ≤ normalize_ha (l - ra) := normalize_ha_ge _
  have heast : normalize_ha (l - ra) < 0 →
      destination_side_of_pier moe mow (some l) ra = PierSide.pierEast := by
    intro hneg
    rw [destination_side_of_pier_some, if_pos hneg,
        if_neg (not_lt.mpr (by linarith))]
  refine ⟨rfl, ?_, heast, ?_, ?_⟩
  · rw [destination_side_of_pier_some]
    split
    · split <;> simp
    · split <;> simp
  · intro h0 hw
    rw [destination_side_of_pier_some, if_neg (not_lt.mpr h0),
        if_neg (not_lt.mpr hw)]
  · intro hw
    rcases lt_or_le (normalize_ha (l - ra)) 0 with hneg | h0
    · exact heast hneg
    · rw [destination_side_of_pier_some, if_neg (not_lt.mpr h0), if_pos hw]

/-- Witness for the amended C5: offsets east `2h` / west `1.5h`, sidereal
time `20h`, target `ra = 19h` (hour angle `+1h`, within the west offset):
predicted side is `pierWest`. -/
theorem C5_witness :
    destination_side_of_pier 2 (3 / 2) (some 20) 19 = PierSide.pierWest := by
  have hn : normalize_ha ((20 : ℚ) - 19) = 1 := by
    rw [show (20 : ℚ) - 19 = 1 by norm_num]
    exact normalize_ha_of_mem 1 (by norm_num) (by norm_num)
  exact (C5_destination_pier_side 2 (3 / 2) 20 19 (by norm_num)).2.2.2.1
    (by rw [hn]; norm_num) (by rw [hn]; norm_num)

/-! ## Theorems: coordinate codec -/

/-- Rounding the seconds field to two decimals moves it by at most
half of the last printed digit. -/
theorem round2_close (q : ℚ) : |round2 q - q| ≤ 1 / 200 := by
  unfold round2
  have h1 : ((⌊q * 100 + 1 / 2⌋ : ℤ) : ℚ) ≤ q * 100 + 1 / 2 := Int.floor_le _
  have h2 : q * 100 + 1 / 2 - 1 < ((⌊q * 100 + 1 / 2⌋ : ℤ) : ℚ) :=
    Int.sub_one_lt_floor _
  rw [abs_le]
  constructor <;> linarith

/-- C6: the coordinate codec round trip.  Formatting decimal hours as
`HH:MM:SS.ss` and parsing the result recovers the value to within
±1/108000 hour (±0.5 arcsecond-equivalent); formatting decimal degrees
as `sDD:MM:SS.ss` and parsing recovers the value to within ±1/7200
degree (±0.5 arcsecond).  (The actual bound proved en route is the
rounding of the seconds field to two decimals, 1/720000.) -/
theorem C6_codec_round_trip (h d : ℚ)
    (h0 : 0 ≤ h) (h1 : h < 24) (d0 : -90 ≤ d) (d1 : d ≤ 90) :
    |parse_ra_to_hours (format_ra_hours h) - h| ≤ 1 / 108000 ∧
    |parse_dec_to_degrees (format_dec_degrees d) - d| ≤ 1 / 7200 := by
  constructor
  · have hkey : parse_ra_to_hours (format_ra_hours h) - h
        = (round2 (((h - (pyTrunc h : ℚ)) * 60
              - (pyTrunc ((h - (pyTrunc h : ℚ)) * 60) : ℚ)) * 60)
            - ((h - (pyTrunc h : ℚ)) * 60
              - (pyTrunc ((h - (pyTrunc h : ℚ)) * 60) : ℚ)) * 60) / 3600 := by
      simp only [parse_ra_to_hours, format_ra_hours]
      ring
    have hb := round2_close (((h - (pyTrunc h : ℚ)) * 60
      - (pyTrunc ((h - (pyTrunc h : ℚ)) * 60) : ℚ)) * 60)
    rw [hkey]
    rw [abs_le] at hb ⊢
    constructor <;> linarith
  · rcases le_or_lt 0 d with hd | hd
    · have hkey : parse_dec_to_degrees (format_dec_degrees d) - d
          = (round2 (((d - (pyTrunc d : ℚ)) * 60
                - (pyTrunc ((d - (pyTrunc d : ℚ)) * 60) : ℚ)) * 60)
              - ((d - (pyTrunc d : ℚ)) * 60
                - (pyTrunc ((d - (pyTrunc d : ℚ)) * 60) : ℚ)) * 60) / 3600 := by
        simp only [parse_dec_to_degrees, format_dec_degrees,
          if_pos (show d ≥ 0 from hd), abs_of_nonneg hd]
        push_cast
        ring
      have hb := round2_close (((d - (pyTrunc d : ℚ)) * 60
        - (pyTrunc ((d - (pyTrunc d : ℚ)) * 60) : ℚ)) * 60)
      rw [hkey]
      rw [abs_le] at hb ⊢
      constructor <;> linarith
    · have hkey : parse_dec_to_degrees (format_dec_degrees d) - d
          = -((round2 (((-d - (pyTrunc (-d) : ℚ)) * 60
                - (pyTrunc ((-d - (pyTrunc (-d) : ℚ)) * 60) : ℚ)) * 60)
              - ((-d - (pyTrunc (-d) : ℚ)) * 60
                - (pyTrunc ((-d - (pyTrunc (-d) : ℚ)) * 60) : ℚ)) * 60) / 3600) := by
        simp only [parse_dec_to_degrees, format_dec_degrees,
          if_neg (show ¬ d ≥ 0 from not_le.mpr hd), abs_of_neg hd]
        push_cast
        ring
      have hb := round2_close (((-d - (pyTrunc (-d) : ℚ)) * 60
        - (pyTrunc ((-d - (pyTrunc (-d) : ℚ)) * 60) : ℚ)) * 60)
      rw [hkey]
      rw [abs_le] at hb ⊢
      constructor <;> linarith

/-- Witness for C6: the round trip bounds applied at `h = 10.5h`,
`d = -33.25°`. -/
theorem C6_witness :
    |parse_ra_to_hours (format_ra_hours (21 / 2)) - 21 / 2| ≤ 1 / 108000 ∧
    |parse_dec_to_degrees (format_dec_degrees (-133 / 4)) - -133 / 4| ≤ 1 / 7200 :=
  C6_codec_round_trip (21 / 2) (-133 / 4) (by norm_num) (by norm_num)
    (by norm_num) (by norm_num)

/-! ## Theorems: reachability -/

/-- Evaluation of `can_reach_coordinates` when sidereal time is available. -/
theorem can_reach_some (lat moe mow l : ℚ) (alt_of : ℚ → ℚ → ℚ) (ra dec : ℚ) :
    can_reach_coordinates lat moe mow (some l) alt_of ra dec =
      (if dec < -90 ∨ dec > 90 then (false, "Declination out of range")
      else if lat ≠ 0 ∧ alt_of ra dec < 0 then (false, "Target below horizon")
      else if normalize_ha (l - ra) < -(12 + moe) ∨ normalize_ha (l - ra) > mow
        then (false, "Beyond meridian limits")
      else (true, "")) := rfl

/-- Evaluation of `can_reach_coordinates` when sidereal time is
unavailable. -/
theorem can_reach_none (lat moe mow : ℚ) (alt_of : ℚ → ℚ → ℚ) (ra dec : ℚ) :
    can_reach_coordinates lat moe mow none alt_of ra dec =
      (if dec < -90 ∨ dec > 90 then (false, "Declination out of range")
      else if lat ≠ 0 ∧ alt_of ra dec < 0 then (false, "Target below horizon")
      else (true, "")) := rfl

/-- The sign of `_calculate_altitude` is the sign of the spherical-trig
sine-of-altitude expression (the `arcsin` and the positive
radian/degree scalings preserve it). -/
theorem calculate_altitude_neg_iff (lat l ra dec : ℝ) :
    calculate_altitude lat (some l) ra dec < 0 ↔
      Real.sin (dec * (Real.pi / 180)) * Real.sin (lat * (Real.pi / 180)) +
        Real.cos (dec * (Real.pi / 180)) * Real.cos (lat * (Real.pi / 180)) *
          Real.cos ((l - ra) * 15 * (Real.pi / 180)) < 0 := by
  have harc : ∀ x : ℝ, Real.arcsin x < 0 ↔ x < 0 := by
    intro x
    rw [← neg_pos, ← Real.arcsin_neg, Real.arcsin_pos, neg_pos]
  have hpi : (0 : ℝ) < 180 / Real.pi := by positivity
  unfold calculate_altitude
  rw [mul_neg_iff]
  constructor
  · rintro (⟨-, hlt⟩ | ⟨hlt, -⟩)
    · exact absurd hpi (not_lt.mpr hlt.le)
    · exact (harc _).mp hlt
  · intro hs
    exact Or.inr ⟨(harc _).mpr hs, hpi⟩

/-- C7: rejection behaviour of `can_reach_coordinates` (stated for any
altitude computation `alt_of` standing for `_calculate_altitude`, whose
sign is characterized by `calculate_altitude_neg_iff`).  (a) A
declination outside [-90°, 90°] is rejected unconditionally.  (b) With a
known (nonzero) site latitude, a target of negative computed altitude is
rejected.  (c) With sidereal time available, a normalized hour angle
beyond the meridian limit in either direction is rejected.  (d, e)
Otherwise the result is `(true, "")`, with or without sidereal time. -/
theorem C7_can_reach_rejections
    (lat moe mow ra dec : ℚ) (lst : Option ℚ) (alt_of : ℚ → ℚ → ℚ) :
    (dec < -90 ∨ dec > 90 →
      (can_reach_coordinates lat moe mow lst alt_of ra dec).1 = false) ∧
    (-90 ≤ dec → dec ≤ 90 → lat ≠ 0 → alt_of ra dec < 0 →
      (can_reach_coordinates lat moe mow lst alt_of ra dec).1 = false) ∧
    (∀ l, -90 ≤ dec → dec ≤ 90 → ¬(lat ≠ 0 ∧ alt_of ra dec < 0) →
      lst = some l →
      (normalize_ha (l - ra) < -(12 + moe) ∨ normalize_ha (l - ra) > mow) →
      (can_reach_coordinates lat moe mow lst alt_of ra dec).1 = false) ∧
    (∀ l, -90 ≤ dec → dec ≤ 90 → ¬(lat ≠ 0 ∧ alt_of ra dec < 0) →
      lst = some l →
      ¬(normalize_ha (l - ra) < -(12 + moe) ∨ normalize_ha (l - ra) > mow) →
      can_reach_coordinates lat moe mow lst alt_of ra dec = (true, "")) ∧
    (lst = none → -90 ≤ dec → dec ≤ 90 → ¬(lat ≠ 0 ∧ alt_of ra dec < 0) →
      can_reach_coordinates lat moe mow lst alt_of ra dec = (true, "")) := by
  refine ⟨?_, ?_, ?_, ?_, ?_⟩
  · intro hdec
    cases lst with
    | none => rw [can_reach_none, if_pos hdec]
    | some l => rw [can_reach_some, if_pos hdec]
  · intro hd0 hd1 hlat halt
    have hdec : ¬(dec < -90 ∨ dec > 90) := by
      rintro (h | h) <;> linarith
    cases lst with
    | none => rw [can_reach_none, if_neg hdec, if_pos ⟨hlat, halt⟩]
    | some l => rw [can_reach_some, if_neg hdec, if_pos ⟨hlat, halt⟩]
  · intro l hd0 hd1 hhor hlst hha
    have hdec : ¬(dec < -90 ∨ dec > 90) := by
      rintro (h | h) <;> linarith
    subst hlst
    rw [can_reach_some, if_neg hdec, if_neg hhor, if_pos hha]
  · intro l hd0 hd1 hhor hlst hha
    have hdec : ¬(dec < -90 ∨ dec > 90) := by
      rintro (h | h) <;> linarith
    subst hlst
    rw [can_reach_some, if_neg hdec, if_neg hhor, if_neg hha]
  · intro hlst hd0 hd1 hhor
    have hdec : ¬(dec < -90 ∨ dec > 90) := by
      rintro (h | h) <;> linarith
    subst hlst
    rw [can_reach_none, if_neg hdec, if_neg hhor]

/-- Witness for C7: latitude 40°, offsets 1h, sidereal time 6h.  A target
at declination 100° is rejected; the same target at declination 20° on
the meridian is accepted. -/
theorem C7_witness :
    (can_reach_coordinates 40 1 1 (some 6) (fun _ _ => 50) 6 100).1 = false ∧
    can_reach_coordinates 40 1 1 (some 6) (fun _ _ => 50) 6 20 = (true, "") := by
  have hn : normalize_ha ((6 : ℚ) - 6) = 0 := by
    rw [show (6 : ℚ) - 6 = 0 by norm_num]
    exact normalize_ha_of_mem 0 (by norm_num) (by norm_num)
  constructor
  · exact (C7_can_reach_rejections 40 1 1 6 100 (some 6) (fun _ _ => 50)).1
      (Or.inr (by norm_num))
  · exact (C7_can_reach_rejections 40 1 1 6 20 (some 6) (fun _ _ => 50)).2.2.2.1
      6 (by norm_num) (by norm_num) (by rintro ⟨-, h⟩; norm_num at h) rfl
      (by rw [hn]; rintro (h | h) <;> norm_num at h)

/-! ## Theorems: pulse guiding -/

/-- Evaluation of `is_pulse_guiding` within the recorded window when the
status query produced no response. -/
theorem is_pulse_guiding_active_none (s : PulseState) (now : ℚ)
    (hpg : s.pulse_guiding = true) (ht : now ≤ s.pulse_guide_end_time) :
    is_pulse_guiding s now none = (true, s) := by
  unfold is_pulse_guiding
  rw [hpg]
  rw [if_neg (by simp), if_neg (not_lt.mpr ht)]

/-- Evaluation of `is_pulse_guiding` within the recorded window when the
status query produced the string `str`. -/
theorem is_pulse_guiding_active_some (s : PulseState) (now : ℚ) (str : String)
    (hpg : s.pulse_guiding = true) (ht : now ≤ s.pulse_guide_end_time) :
    is_pulse_guiding s now (some str) =
      (if str = "" then (true, s)
      else if str = "G" then (true, s)
      else if str = "N" ∨ str = "0" then (false, { s with pulse_guiding := false })
      else (true, s)) := by
  unfold is_pulse_guiding
  rw [hpg]
  rw [if_neg (by simp), if_neg (not_lt.mpr ht)]

/-- C8: after a successful `pulse_guide` records its window, the recorded
end time is `now + duration_ms/1000` and `is_pulse_guiding`:
(a) before or at the end time, reports `true` when the `:GU#` status
query yields no usable answer (no response, or a response other than
`'G'`, `'N'`, `'0'`);
(b) before or at the end time, reports `true` on an explicit `'G'`;
(c) before or at the end time, reports `false` and clears the pulse flag
on an explicit `'N'` or `'0'`;
(d) strictly after the end time, reports `false` and clears the pulse
flag whatever the status query would have returned (the result does not
depend on it). -/
theorem C8_pulse_guide_activity
    (s s1 : PulseState) (d : GuideDirections) (duration_ms now : ℚ)
    (r : Option String)
    (hr : r = some "0" ∨ r = none)
    (hs1 : pulse_guide s d duration_ms now r = (true, s1)) :
    (s1.pulse_guiding = true ∧
      s1.pulse_guide_end_time = now + duration_ms / 1000) ∧
    (∀ t gu, t ≤ s1.pulse_guide_end_time →
      (gu = none ∨ ∃ str, gu = some str ∧ str ≠ "G" ∧ str ≠ "N" ∧ str ≠ "0") →
      is_pulse_guiding s1 t gu = (true, s1)) ∧
    (∀ t, t ≤ s1.pulse_guide_end_time →
      is_pulse_guiding s1 t (some "G") = (true, s1)) ∧
    (∀ t gu, t ≤ s1.pulse_guide_end_time →
      (gu = some "N" ∨ gu = some "0") →
      is_pulse_guiding s1 t gu = (false, { s1 with pulse_guiding := false })) ∧
    (∀ t gu, t > s1.pulse_guide_end_time →
      is_pulse_guiding s1 t gu = (false, { s1 with pulse_guiding := false })) := by
  have hrec : s1 =
      { pulse_guiding := true
        pulse_guide_end_time := now + duration_ms / 1000
        pulse_guide_direction := some d
        pulse_guide_duration := duration_ms
        pulse_guide_start_time := now } := by
    unfold pulse_guide at hs1
    rw [if_pos hr] at hs1
    exact (Prod.mk.injEq _ _ _ _ ▸ hs1).2.symm
  subst hrec
  refine ⟨⟨rfl, rfl⟩, ?_, ?_, ?_, ?_⟩
  · intro t gu ht hgu
    rcases hgu with h | ⟨str, h, hG, hN, h0⟩
    · subst h
      rw [is_pulse_guiding_active_none _ _ rfl ht]
    · subst h
      rw [is_pulse_guiding_active_some _ _ _ rfl ht]
      by_cases hstr : str = ""
      · rw [if_pos hstr]
      · rw [if_neg hstr, if_neg hG, if_neg (by rintro (h | h) <;> contradiction)]
  · intro t ht
    rw [is_pulse_guiding_active_some _ _ _ rfl ht]
    simp
  · intro t gu ht hgu
    rcases hgu with h | h <;> subst h <;>
      rw [is_pulse_guiding_active_some _ _ _ rfl ht] <;> simp
  · intro t gu ht
    unfold is_pulse_guiding
    rw [if_neg (by simp), if_pos ht]

/-- Witness for C8: `startPulse(North, 500 ms)` at `t = 0`, polled at
`t = 0.25 s` with no device answer: active; polled at `t = 0.6 s`:
inactive with the flag cleared. -/
theorem C8_witness :
    is_pulse_guiding
      (pulse_guide ⟨false, 0, none, 0, 0⟩ GuideDirections.guideNorth 500 0 none).2
      (1 / 4) none
      = (true, (pulse_guide ⟨false, 0, none, 0, 0⟩ GuideDirections.guideNorth
          500 0 none).2) ∧
    is_pulse_guiding
      (pulse_guide ⟨false, 0, none, 0, 0⟩ GuideDirections.guideNorth 500 0 none).2
      (3 / 5) none
      = (false,
        { (pulse_guide ⟨false, 0, none, 0, 0⟩ GuideDirections.guideNorth
            500 0 none).2 with pulse_guiding := false }) := by
  have h := C8_pulse_guide_activity ⟨false, 0, none, 0, 0⟩
    (pulse_guide ⟨false, 0, none, 0, 0⟩ GuideDirections.guideNorth 500 0 none).2
    GuideDirections.guideNorth 500 0 none (Or.inr rfl) rfl
  exact ⟨h.2.1 (1 / 4) none (by rw [h.1.2]; norm_num) (Or.inl rfl),
         h.2.2.2.2 (3 / 5) none (by rw [h.1.2]; norm_num)⟩

/-! ## Theorems: Alt/Az slews and the slew monitor -/

/-- Counterexample to C10.  C10 states that every `is_slewing` poll after
a successful Alt/Az slew start returns `false`.  But `slew_to_altaz`
leaves a previously recorded RA/Dec slew target in place (it only sets
the flag and the start time), so when an RA/Dec session aimed at
`(10h, 20°)` is still recorded and an Alt/Az slew then starts
successfully, the next poll (at position `(0h, 0°)`, far from the stale
target) returns `true`. -/
theorem C10_counterexample :
    (slew_to_altaz (set_slew_target 10 20 0) 1 (some "0")).2.slew_target
        = some (10, 20) ∧
    (is_slewing true (slew_to_altaz (set_slew_target 10 20 0) 1 (some "0")).2
        1 (some 0) (some 0)).1 = true := by
  have hs : (slew_to_altaz (set_slew_target 10 20 0) 1 (some "0")).2 =
      { slew_target := some (10, 20), slewing := true, slew_start_time := some 1,
        position_stable_since := none, last_position := none } := rfl
  rw [hs]
  refine ⟨rfl, ?_⟩
  rw [is_slewing_active_poll _ 1 (10, 20) (some 0) (some 0) rfl
    (by intro t0 h; injection h with h; subst h; norm_num [slew_timeout])]
  have h1 : ra_sep_arcmin 0 10 = 9000 := by
    unfold ra_sep_arcmin
    rw [show |(0 : ℚ) - 10| = 10 by rw [abs_sub_comm, abs_of_nonneg] <;> norm_num]
    norm_num
  have h2 : |(0 : ℚ) - 20| = 20 := by
    rw [abs_sub_comm, abs_of_nonneg] <;> norm_num
  simp only [slew_position_poll, h1, h2, stability_threshold]
  norm_num

/-- C10 (amended): a successful Alt/Az slew (`:MA#` acknowledged with
`'0'`) sets the slewing flag and the start time but records no RA/Dec
slew target — it leaves the previously recorded target unchanged;
`is_slewing` returns `false` (leaving the state untouched) whenever no
slew target is recorded; hence, provided no RA/Dec target from an
earlier slew is still recorded, every `is_slewing` poll after the
Alt/Az slew start returns `false` even while the mount is moving. -/
theorem C10_altaz_never_slewing (s : SlewState) (now : ℚ) :
    ((slew_to_altaz s now (some "0")).1 = true ∧
      (slew_to_altaz s now (some "0")).2.slewing = true ∧
      (slew_to_altaz s now (some "0")).2.slew_start_time = some now ∧
      (slew_to_altaz s now (some "0")).2.slew_target = s.slew_target) ∧
    (∀ st : SlewState, ∀ t : ℚ, ∀ cra cdec : Option ℚ, st.slew_target = none →
      is_slewing true st t cra cdec = (false, st)) ∧
    (s.slew_target = none →
      ∀ t : ℚ, ∀ cra cdec : Option ℚ,
        is_slewing true (slew_to_altaz s now (some "0")).2 t cra cdec
          = (false, (slew_to_altaz s now (some "0")).2)) := by
  have heval : ∀ st : SlewState, ∀ t : ℚ, ∀ cra cdec : Option ℚ,
      st.slew_target = none → is_slewing true st t cra cdec = (false, st) := by
    intro st t cra cdec hnone
    unfold is_slewing
    rw [hnone]
    rfl
  refine ⟨⟨rfl, rfl, rfl, rfl⟩, heval, ?_⟩
  intro hnone t cra cdec
  exact heval _ t cra cdec (by rw [show (slew_to_altaz s now (some "0")).2.slew_target
    = s.slew_target from rfl]; exact hnone)

/-- Witness for the amended C10: from an idle session, after a successful
Alt/Az slew at `t = 5`, the poll at `t = 6` reports not slewing. -/
theorem C10_witness :
    is_slewing true (slew_to_altaz clear_slew_state 5 (some "0")).2 6 (some 3) (some 4)
      = (false, (slew_to_altaz clear_slew_state 5 (some "0")).2) :=
  (C10_altaz_never_slewing clear_slew_state 5).2.2 rfl 6 (some 3) (some 4)

end AlpacaOnStepX
